import Mathlib

/-!
Shallow embedding of the EdgeCoder desktop launcher/supervisor
(`src/desktop/src-tauri/src/main.rs`): the local-instance probe, the agent
locator, the spawn configuration, the window-destruction teardown handler,
the deep-link bridge, the session-token generator, and the system-metrics
query. External effects (TCP probe result, filesystem contents, environment
variables, the OS spawn outcome, and the sysinfo sampler) are inputs of the
model; machine `u64` arithmetic is `Nat` with explicit `% 2 ^ 64` where the
source can wrap, and `f32`/`f64` arithmetic is modelled exactly over `ℚ`.
-/

namespace EdgeCoder

/-- An OS child process handle (`std::process::Child`), identified by pid. -/
structure Child where
  pid : Nat
deriving DecidableEq, Repr

/-- A filesystem path as a list of joined components; `PathBuf::join` appends
a component. -/
abbrev Path := List String

/-- The configuration of a spawned command: program, arguments, working
directory and the explicitly set environment entries. -/
structure SpawnCmd where
  program : String
  args : List String
  cwd : Path
  env : List (String × String)
deriving DecidableEq, Repr

/-- The external world a launch runs against: the probe outcome
(`TcpStream::connect("127.0.0.1:4301").is_ok()`), the Tauri resource
directory (`app.path().resource_dir().ok()`), the process environment
(`std::env::var`), the filesystem (`Path::exists`), and the OS spawn outcome
(`Command::spawn().ok()`). -/
structure World where
  agentRunning : Bool
  resourceDir : Option Path
  envVar : String → Option String
  fileExists : Path → Bool
  spawnResult : Option Child

/-- `agent_already_running`: the TCP connect probe to `127.0.0.1:4301`. -/
def agent_already_running (w : World) : Bool :=
  w.agentRunning

/-- The fallback install directory:
`std::env::var("EDGECODER_INSTALL_DIR").unwrap_or_else(|_| "/opt/edgecoder/app")`. -/
def fallbackDir (w : World) : Path :=
  [(w.envVar "EDGECODER_INSTALL_DIR").getD "/opt/edgecoder/app"]

/-- The bundled candidate: `resource_dir.join("agent")`. -/
def bundledDir (rd : Path) : Path := rd ++ ["agent"]

/-- The locator chain of `start_agent`:
`resource_dir().ok().map(|p| p.join("agent")).filter(|p| p.join("dist/index.js").exists()).unwrap_or_else(fallback)`. -/
def locateAgentDir (w : World) : Path :=
  (((w.resourceDir.map bundledDir).filter
      fun p => w.fileExists (p ++ ["dist/index.js"]))).getD (fallbackDir w)

/-- The environment entries set on the spawned command. -/
def agentEnv (localToken : String) : List (String × String) :=
  [("EDGE_RUNTIME_MODE", "all-in-one"),
   ("INFERENCE_AUTH_TOKEN", localToken),
   ("ADMIN_API_TOKEN", localToken)]

/-- `start_agent`: probe, locate, check the entry file, then spawn
`node dist/index.js` from the resolved directory. The first component is the
spawn attempt (`none` when no spawn is attempted), the second the returned
handle (`none` also when the OS rejects the spawn). -/
def start_agent (w : World) (localToken : String) :
    Option SpawnCmd × Option Child :=
  if agent_already_running w then (none, none)
  else
    let agentDir := locateAgentDir w
    if !(w.fileExists (agentDir ++ ["dist/index.js"])) then (none, none)
    else
      (some { program := "node", args := ["dist/index.js"], cwd := agentDir,
              env := agentEnv localToken },
       w.spawnResult)

/-- The Tauri-managed per-launch state: the `LocalToken` string and the
`AgentProcess` mutex contents. -/
structure AppState where
  localToken : String
  agent : Option Child

/-- The `get_local_token` command: `state.0.clone()`. -/
def get_local_token (s : AppState) : String := s.localToken

/-- The setup portion of `main`: run `start_agent` with the launch token and
manage the resulting handle next to the already-managed token. -/
def mainSetup (w : World) (localToken : String) : AppState × Option SpawnCmd :=
  let r := start_agent w localToken
  ({ localToken := localToken, agent := r.2 }, r.1)

/-- The `WindowEvent::Destroyed` handler: when the managed state is reachable
(`try_state` succeeds) and the mutex lock is acquired, kill the child if one
is stored, leaving the `Option` contents otherwise untouched. Returns the new
mutex contents and the list of pids signalled. -/
def onWindowDestroyed (statePresent lockOk : Bool) (st : Option Child) :
    Option Child × List Nat :=
  if statePresent && lockOk then
    match st with
    | some child => (some child, [child.pid])
    | none => (none, [])
  else (st, [])

/-- Run `n` consecutive destruction events (state reachable, lock acquired),
accumulating every termination signal sent. -/
def runDestroyEvents (st : Option Child) : Nat → Option Child × List Nat
  | 0 => (st, [])
  | n + 1 =>
    let r1 := onWindowDestroyed true true st
    let r2 := runDestroyEvents r1.1 n
    (r2.1, r1.2 ++ r2.2)

/-- A concrete world whose probe reports the agent as running. -/
def wRunning : World :=
  { agentRunning := true
    resourceDir := some ["res"]
    envVar := fun _ => none
    fileExists := fun _ => true
    spawnResult := some ⟨3⟩ }

/-- A concrete world where the bundled entry file exists and the spawn
succeeds. -/
def wSpawn : World :=
  { agentRunning := false
    resourceDir := some ["res"]
    envVar := fun _ => none
    fileExists := fun p => p == ["res", "agent", "dist/index.js"]
    spawnResult := some ⟨9⟩ }

/-- The spawn configuration produced in `wSpawn` with token `"t0"`. -/
def cmdSpawn : SpawnCmd :=
  { program := "node", args := ["dist/index.js"], cwd := ["res", "agent"],
    env := agentEnv "t0" }

/-- A concrete world where both the bundled location and the fallback install
directory contain the entry file. -/
def wBoth : World :=
  { agentRunning := false
    resourceDir := some ["res"]
    envVar := fun _ => none
    fileExists := fun p =>
      p == ["res", "agent", "dist/index.js"] ||
      p == ["/opt/edgecoder/app", "dist/index.js"]
    spawnResult := some ⟨5⟩ }

/-- A concrete world where neither candidate location contains the entry
file. -/
def wMissing : World :=
  { agentRunning := false
    resourceDir := some ["res"]
    envVar := fun _ => none
    fileExists := fun _ => false
    spawnResult := some ⟨6⟩ }

/-- One character of serde_json string escaping: quote and backslash get a
backslash, control characters get their short escape or a `\u00xx` form,
everything else passes through. -/
def jsonEscapeChar (c : Char) : List Char :=
  if c = '"' then ['\\', '"']
  else if c = '\\' then ['\\', '\\']
  else if c.toNat < 32 then
    if c = '\x08' then ['\\', 'b']
    else if c = '\t' then ['\\', 't']
    else if c = '\n' then ['\\', 'n']
    else if c = '\x0c' then ['\\', 'f']
    else if c = '\r' then ['\\', 'r']
    else ['\\', 'u', '0', '0',
          Nat.digitChar (c.toNat / 16), Nat.digitChar (c.toNat % 16)]
  else [c]

/-- `serde_json::to_string` on a string value: the JSON-quoted form. -/
def jsonQuote (s : String) : String :=
  ⟨ '"' :: (s.data.map jsonEscapeChar).flatten ++ ['"'] ⟩

/-- The script evaluated in the main window for a deep-link URL. -/
def deepLinkScript (url : String) : String :=
  "window.__handleDeepLink(" ++ jsonQuote url ++ ")"

/-- The `on_open_url` closure: take only the first URL of the event's batch;
if a main webview window is attached, evaluate the deep-link script there,
otherwise drop the event. Returns the window id and script evaluated, if
any. -/
def onOpenUrl (mainWindow : Option Nat) (urls : List String) :
    Option (Nat × String) :=
  match urls.head? with
  | some url =>
    match mainWindow with
    | some w => some (w, deepLinkScript url)
    | none => none
  | none => none

/-- Per-disk totals reported by the sysinfo `Disks` list, in bytes (`u64`
values). -/
structure DiskInfo where
  totalSpace : Nat
  availableSpace : Nat
deriving DecidableEq, Repr

/-- One refresh of the sysinfo sampler: per-core CPU usages, memory counters
in bytes, and the mounted-volume list. -/
structure SysSnapshot where
  cpuUsages : List ℚ
  usedMemory : Nat
  totalMemory : Nat
  disks : List DiskInfo

/-- The metrics record returned to the UI; `f32`/`f64` fields are modelled
exactly over `ℚ`. -/
structure SystemMetrics where
  cpu_usage_percent : ℚ
  memory_used_mb : Nat
  memory_total_mb : Nat
  disk_used_gb : ℚ
  disk_total_gb : ℚ

/-- `get_system_metrics`: mean per-core CPU usage guarded against an empty
core list, memory converted to MiB by `u64` division, and disk usage as the
saturating difference of the summed totals and summed available space
(`u64` sums wrap at `2 ^ 64`), converted to GiB. -/
def get_system_metrics (s : SysSnapshot) : SystemMetrics :=
  let cpuCount : ℚ := s.cpuUsages.length
  let cpuUsage := if cpuCount > 0 then s.cpuUsages.sum / cpuCount else 0
  let diskTotalBytes : Nat := ((s.disks.map fun d => d.totalSpace).sum) % 2 ^ 64
  let diskAvailableBytes : Nat :=
    ((s.disks.map fun d => d.availableSpace).sum) % 2 ^ 64
  let diskUsedBytes : Nat := diskTotalBytes - diskAvailableBytes
  { cpu_usage_percent := cpuUsage
    memory_used_mb := s.usedMemory / 1048576
    memory_total_mb := s.totalMemory / 1048576
    disk_used_gb := (diskUsedBytes : ℚ) / 1073741824
    disk_total_gb := (diskTotalBytes : ℚ) / 1073741824 }

/-- A concrete snapshot reporting zero logical cores. -/
def snapNoCores : SysSnapshot :=
  { cpuUsages := [], usedMemory := 0, totalMemory := 0, disks := [] }

/-- A concrete snapshot with two cores at 30% and 60%. -/
def snapTwoCores : SysSnapshot :=
  { cpuUsages := [30, 60], usedMemory := 0, totalMemory := 0, disks := [] }

/-- A concrete snapshot with plausible memory counters. -/
def snapMemory : SysSnapshot :=
  { cpuUsages := [], usedMemory := 3145728, totalMemory := 8388608,
    disks := [] }

/-- The per-launch session token: `format!("local-{}-{}", nanos, pid)` with
both numbers rendered in decimal. -/
def mkLocalToken (nanos pid : Nat) : String :=
  "local-" ++ Nat.repr nanos ++ "-" ++ Nat.repr pid

/-- The token as `main` computes it:
`duration_since(UNIX_EPOCH).unwrap_or_default().as_nanos()` — a failed clock
read yields the zero default duration. -/
def tokenOfClock (clock : Option Nat) (pid : Nat) : String :=
  mkLocalToken (clock.getD 0) pid

/-- The decimal digit characters of a number, most significant first. -/
def toDecDigits (n : Nat) : List Char :=
  if _h : n < 10 then [Nat.digitChar n]
  else toDecDigits (n / 10) ++ [Nat.digitChar (n % 10)]
decreasing_by exact Nat.div_lt_self (by omega) (by omega)

/-- The launch-lifetime events that can reach the managed state after
setup. -/
inductive AppEvent where
  | windowDestroyed (statePresent lockOk : Bool)
  | deepLink (mainWindow : Option Nat) (urls : List String)
  | metricsQuery (snap : SysSnapshot)
  | tokenQuery

/-- How a single event acts on the managed state: the destruction handler
rewrites the `AgentProcess` mutex contents; the deep-link closure, the
metrics command and the token command leave the managed state unchanged. -/
def stepEvent (s : AppState) (e : AppEvent) : AppState :=
  match e with
  | .windowDestroyed sp lk =>
    { s with agent := (onWindowDestroyed sp lk s.agent).1 }
  | .deepLink _ _ => s
  | .metricsQuery _ => s
  | .tokenQuery => s

/-- Run a launch: set up, then process a sequence of events. -/
def runEvents (s : AppState) (es : List AppEvent) : AppState :=
  es.foldl stepEvent s

end EdgeCoder

namespace EdgeCoder

/-- C1: whenever the local-instance probe reports the agent as already
running, `start_agent` attempts no spawn and returns no handle. -/
theorem start_agent_skips_when_running (w : World) (tok : String)
    (h : w.agentRunning = true) :
    start_agent w tok = (none, none) := by
  simp [start_agent, agent_already_running, h]

/-- Witness for C1 at a concrete world. -/
theorem start_agent_skips_when_running_witness :
    wRunning.agentRunning = true ∧ start_agent wRunning "t" = (none, none) :=
  ⟨rfl, start_agent_skips_when_running wRunning "t" rfl⟩

/-- C2 fails on the code: starting from a stored live child, two consecutive
destruction events signal the child twice, not once, and the handle is still
stored afterwards — the handler does not drain it. -/
theorem onWindowDestroyed_double_signal :
    (runDestroyEvents (some ⟨1⟩) 2).2 = [1, 1] ∧
    (runDestroyEvents (some ⟨1⟩) 2).2 ≠ [1] ∧
    (runDestroyEvents (some ⟨1⟩) 2).1 = some ⟨1⟩ := by
  refine ⟨rfl, ?_, rfl⟩
  decide

/-- C2 amended: each destruction event that reaches the locked state kills
the stored child once and never panics (the handler is total and swallows
kill errors), but it leaves the handle in place, so a second event signals
the child again; with the state unreachable or the lock poisoned nothing is
signalled. -/
theorem onWindowDestroyed_signals_each_event (c : Child) (lk : Bool) :
    onWindowDestroyed true true (some c) = (some c, [c.pid]) ∧
    onWindowDestroyed true true none = (none, []) ∧
    onWindowDestroyed false lk (some c) = (some c, []) ∧
    (runDestroyEvents (some c) 2).2 = [c.pid, c.pid] := by
  refine ⟨rfl, rfl, ?_, rfl⟩
  simp [onWindowDestroyed]

/-- C3: whenever `main`'s setup spawns a child, the spawn configuration binds
`EDGE_RUNTIME_MODE` to `all-in-one` and both `INFERENCE_AUTH_TOKEN` and
`ADMIN_API_TOKEN` to the launch token, and `get_local_token` on the resulting
state returns that same token. -/
theorem spawn_env_matches_local_token (w : World) (tok : String)
    (cmd : SpawnCmd) (h : (mainSetup w tok).2 = some cmd) :
    cmd.env.lookup "EDGE_RUNTIME_MODE" = some "all-in-one" ∧
    cmd.env.lookup "INFERENCE_AUTH_TOKEN" = some tok ∧
    cmd.env.lookup "ADMIN_API_TOKEN" = some tok ∧
    get_local_token (mainSetup w tok).1 = tok := by
  refine ⟨?_, ?_, ?_, rfl⟩ <;>
  · simp only [mainSetup, start_agent] at h
    split at h
    · exact absurd h (by simp)
    · split at h
      · exact absurd h (by simp)
      · obtain ⟨rfl⟩ : cmd = _ := by
          have := h.symm
          simpa using this
        simp [agentEnv, List.lookup]

/-- Witness for C3 at a concrete spawning world. -/
theorem spawn_env_matches_local_token_witness :
    cmdSpawn.env.lookup "EDGE_RUNTIME_MODE" = some "all-in-one" ∧
    cmdSpawn.env.lookup "INFERENCE_AUTH_TOKEN" = some "t0" ∧
    cmdSpawn.env.lookup "ADMIN_API_TOKEN" = some "t0" ∧
    get_local_token (mainSetup wSpawn "t0").1 = "t0" :=
  spawn_env_matches_local_token wSpawn "t0" cmdSpawn (by decide)

/-- C4: the locator prefers the bundled resource location whenever the entry
file exists there (regardless of the fallback directory's contents), and when
neither the bundled candidate nor the fallback directory contains the entry
file, `start_agent` attempts no spawn and returns no handle. -/
theorem locator_bundle_wins_and_notfound_skips (w : World) (tok : String) :
    (∀ rd, w.resourceDir = some rd →
      w.fileExists (bundledDir rd ++ ["dist/index.js"]) = true →
      locateAgentDir w = bundledDir rd) ∧
    ((∀ rd, w.resourceDir = some rd →
        w.fileExists (bundledDir rd ++ ["dist/index.js"]) = false) →
      w.fileExists (fallbackDir w ++ ["dist/index.js"]) = false →
      start_agent w tok = (none, none)) := by
  constructor
  · intro rd hrd hex
    simp [locateAgentDir, hrd, Option.filter, hex]
  · intro hbundle hfall
    have hloc : locateAgentDir w = fallbackDir w := by
      cases hrd : w.resourceDir with
      | none => simp [locateAgentDir, hrd]
      | some rd => simp [locateAgentDir, hrd, Option.filter, hbundle rd hrd]
    cases hrun : w.agentRunning with
    | true => simp [start_agent, agent_already_running, hrun]
    | false => simp [start_agent, agent_already_running, hrun, hloc, hfall]

/-- Witness for C4: in `wBoth` the locator resolves to the bundled path even
though the fallback also has the entry file, and in `wMissing` no spawn is
attempted. -/
theorem locator_bundle_wins_and_notfound_skips_witness :
    locateAgentDir wBoth = ["res", "agent"] ∧
    start_agent wMissing "t1" = (none, none) :=
  ⟨(locator_bundle_wins_and_notfound_skips wBoth "t1").1 ["res"] rfl (by decide),
   (locator_bundle_wins_and_notfound_skips wMissing "t1").2
     (fun rd _ => rfl) rfl⟩

/-- C6: the deep-link closure depends only on the first URL of the batch,
forwards it as a `__handleDeepLink` script call with the URL JSON-quoted,
and with no main window attached the event is dropped. -/
theorem onOpenUrl_first_url_only (win : Nat) (u1 u2 : String)
    (rest : List String) (mw : Option Nat) (urls : List String) :
    onOpenUrl mw urls = onOpenUrl mw (urls.take 1) ∧
    onOpenUrl (some win) (u1 :: u2 :: rest)
        = some (win, "window.__handleDeepLink(" ++ jsonQuote u1 ++ ")") ∧
    onOpenUrl none urls = none := by
  refine ⟨?_, rfl, ?_⟩
  · cases urls <;> rfl
  · cases urls <;> rfl

/-- C7: the CPU figure of `get_system_metrics` is the unweighted mean of the
per-core usages, and with zero reported cores it is exactly `0`; in the
dividing branch the divisor is the nonzero core count, so the guarded
division never divides by zero. -/
theorem cpu_usage_mean_guarded (s : SysSnapshot) :
    (s.cpuUsages = [] → (get_system_metrics s).cpu_usage_percent = 0) ∧
    (s.cpuUsages ≠ [] →
      (get_system_metrics s).cpu_usage_percent
          = s.cpuUsages.sum / (s.cpuUsages.length : ℚ) ∧
      (s.cpuUsages.length : ℚ) ≠ 0) := by
  constructor
  · intro h
    simp [get_system_metrics, h]
  · intro h
    have hlen : (0 : ℚ) < (s.cpuUsages.length : ℚ) := by
      exact_mod_cast List.length_pos.mpr h
    exact ⟨by simp [get_system_metrics, hlen], ne_of_gt hlen⟩

/-- Witness for C7 at concrete snapshots with zero and with two cores. -/
theorem cpu_usage_mean_guarded_witness :
    (get_system_metrics snapNoCores).cpu_usage_percent = 0 ∧
    (get_system_metrics snapTwoCores).cpu_usage_percent
        = snapTwoCores.cpuUsages.sum / (snapTwoCores.cpuUsages.length : ℚ) :=
  ⟨(cpu_usage_mean_guarded snapNoCores).1 rfl,
   ((cpu_usage_mean_guarded snapTwoCores).2 (by decide)).1⟩

/-- C8: disk usage is the zero-saturating difference of the summed total and
summed available bytes, and consequently `disk_used_gb` is non-negative and
bounded by `disk_total_gb`. -/
theorem disk_used_le_total (s : SysSnapshot) :
    (get_system_metrics s).disk_used_gb
        = (((((s.disks.map fun d => d.totalSpace).sum % 2 ^ 64)
            - ((s.disks.map fun d => d.availableSpace).sum % 2 ^ 64) : ℕ)) : ℚ)
          / 1073741824 ∧
    0 ≤ (get_system_metrics s).disk_used_gb ∧
    (get_system_metrics s).disk_used_gb
        ≤ (get_system_metrics s).disk_total_gb := by
  refine ⟨rfl, ?_, ?_⟩
  · exact div_nonneg (Nat.cast_nonneg _) (by norm_num)
  · show ((_ : ℕ) : ℚ) / 1073741824 ≤ ((_ : ℕ) : ℚ) / 1073741824
    gcongr
    exact_mod_cast Nat.sub_le _ _

/-- C9: the MiB conversion of the memory counters preserves the sampler's
`used ≤ total` ordering, so every sampled output satisfies
`memory_used_mb ≤ memory_total_mb`. -/
theorem memory_used_le_total (s : SysSnapshot)
    (h : s.usedMemory ≤ s.totalMemory) :
    (get_system_metrics s).memory_used_mb
        ≤ (get_system_metrics s).memory_total_mb :=
  Nat.div_le_div_right h

/-- Witness for C9 at a concrete snapshot. -/
theorem memory_used_le_total_witness :
    snapMemory.usedMemory ≤ snapMemory.totalMemory ∧
    (get_system_metrics snapMemory).memory_used_mb
        ≤ (get_system_metrics snapMemory).memory_total_mb :=
  ⟨by decide, memory_used_le_total snapMemory (by decide)⟩

/-- C10: the managed token is written once at startup and no later event
(window destruction, deep link, metrics query, token query) mutates it, so
`get_local_token` returns the launch token after any event sequence. -/
theorem local_token_constant (w : World) (tok : String)
    (es : List AppEvent) :
    get_local_token (runEvents (mainSetup w tok).1 es) = tok := by
  have hrun : ∀ (l : List AppEvent) (s : AppState),
      (runEvents s l).localToken = s.localToken := by
    intro l
    induction l with
    | nil => intro s; rfl
    | cons e tl ih =>
      intro s
      have hstep : (stepEvent s e).localToken = s.localToken := by
        cases e <;> rfl
      calc (runEvents s (e :: tl)).localToken
          = (runEvents (stepEvent s e) tl).localToken := rfl
        _ = (stepEvent s e).localToken := ih (stepEvent s e)
        _ = s.localToken := hstep
  exact hrun es (mainSetup w tok).1

/-- Core's fuelled digit printer agrees with the structural decimal digits
function whenever the fuel exceeds the number. -/
theorem toDigitsCore_eq_toDecDigits :
    ∀ (fuel n : Nat) (ds : List Char), n < fuel →
      Nat.toDigitsCore 10 fuel n ds = toDecDigits n ++ ds := by
  intro fuel
  induction fuel with
  | zero => intro n ds h; exact absurd h (Nat.not_lt_zero n)
  | succ f ih =>
    intro n ds h
    simp only [Nat.toDigitsCore]
    by_cases h0 : n / 10 = 0
    · have h10 : n < 10 := by omega
      rw [if_pos h0, toDecDigits, dif_pos h10, Nat.mod_eq_of_lt h10]
      rfl
    · have h10 : ¬ n < 10 := by omega
      rw [if_neg h0, ih (n / 10) _ (by omega)]
      conv_rhs => rw [toDecDigits]
      rw [dif_neg h10]
      simp

/-- The characters of `Nat.repr` are the structural decimal digits. -/
theorem repr_data (n : Nat) : (Nat.repr n).data = toDecDigits n := by
  show (Nat.toDigits 10 n).asString.data = toDecDigits n
  rw [Nat.toDigits, toDigitsCore_eq_toDecDigits (n + 1) n [] (Nat.lt_succ_self n)]
  simp [List.asString]

/-- `Nat.digitChar` is injective below `10`. -/
theorem digitChar_injOn :
    ∀ a, a < 10 → ∀ b, b < 10 → Nat.digitChar a = Nat.digitChar b → a = b := by
  decide

/-- No decimal digit character is the hyphen. -/
theorem digitChar_ne_dash : ∀ a, a < 10 → Nat.digitChar a ≠ '-' := by
  decide

/-- Unfolding equation of the structural decimal digits function, phrased
with a plain conditional. -/
theorem toDecDigits_eq (n : Nat) :
    toDecDigits n = if n < 10 then [Nat.digitChar n]
      else toDecDigits (n / 10) ++ [Nat.digitChar (n % 10)] := by
  rw [toDecDigits]
  split <;> simp [*]

/-- The structural decimal digits list is never empty. -/
theorem toDecDigits_ne_nil (n : Nat) : toDecDigits n ≠ [] := by
  rw [toDecDigits]
  split <;> simp

/-- Every character of the structural decimal digits list is a digit
character. -/
theorem toDecDigits_mem (n : Nat) :
    ∀ c ∈ toDecDigits n, ∃ k, k < 10 ∧ c = Nat.digitChar k := by
  induction n using Nat.strong_induction_on with
  | _ n ih =>
    intro c hc
    rw [toDecDigits] at hc
    split at hc
    case isTrue h10 =>
      simp at hc
      exact ⟨n, h10, hc⟩
    case isFalse h10 =>
      rw [List.mem_append] at hc
      rcases hc with hc | hc
      · exact ih (n / 10) (Nat.div_lt_self (by omega) (by omega)) c hc
      · simp at hc
        exact ⟨n % 10, Nat.mod_lt _ (by omega), hc⟩

/-- The hyphen never occurs among decimal digits. -/
theorem dash_not_mem_toDecDigits (n : Nat) : '-' ∉ toDecDigits n := by
  intro hmem
  obtain ⟨k, hk, hck⟩ := toDecDigits_mem n '-' hmem
  exact digitChar_ne_dash k hk hck.symm

/-- The structural decimal digits function is injective. -/
theorem toDecDigits_inj : ∀ n m : Nat, toDecDigits n = toDecDigits m → n = m := by
  intro n
  induction n using Nat.strong_induction_on with
  | _ n ih =>
    intro m h
    rw [toDecDigits_eq n, toDecDigits_eq m] at h
    by_cases hn : n < 10 <;> by_cases hm : m < 10
    · rw [if_pos hn, if_pos hm] at h
      simp at h
      exact digitChar_injOn n hn m hm h
    · rw [if_pos hn, if_neg hm] at h
      have hlen := congrArg List.length h
      simp [List.length_append] at hlen
      exact absurd hlen (toDecDigits_ne_nil (m / 10))
    · rw [if_neg hn, if_pos hm] at h
      have hlen := congrArg List.length h
      simp [List.length_append] at hlen
      exact absurd hlen (toDecDigits_ne_nil (n / 10))
    · rw [if_neg hn, if_neg hm] at h
      have h2 := congrArg List.reverse h
      simp at h2
      have hmod : n % 10 = m % 10 :=
        digitChar_injOn _ (Nat.mod_lt _ (by omega)) _ (Nat.mod_lt _ (by omega))
          h2.1
      have hdiv : n / 10 = m / 10 :=
        ih (n / 10) (Nat.div_lt_self (by omega) (by omega)) (m / 10) h2.2
      omega

/-- Splitting at an unambiguous hyphen separator: if the prefixes are
hyphen-free, equality of the concatenations forces equality of the parts. -/
theorem append_dash_split :
    ∀ (a1 a2 b1 b2 : List Char), '-' ∉ a1 → '-' ∉ a2 →
      a1 ++ '-' :: b1 = a2 ++ '-' :: b2 → a1 = a2 ∧ b1 = b2 := by
  intro a1
  induction a1 with
  | nil =>
    intro a2 b1 b2 h1 h2 h
    cases a2 with
    | nil => simpa using h
    | cons d a2 =>
      simp at h
      exact absurd (h.1 ▸ List.mem_cons_self d a2) h2
  | cons c a1 ih =>
    intro a2 b1 b2 h1 h2 h
    cases a2 with
    | nil =>
      simp at h
      exact absurd (h.1 ▸ List.mem_cons_self c a1) h1
    | cons d a2 =>
      simp at h
      obtain ⟨hcd, htl⟩ := h
      obtain ⟨ha, hb⟩ := ih a2 b1 b2
        (fun hm => h1 (List.mem_cons_of_mem c hm))
        (fun hm => h2 (List.mem_cons_of_mem d hm)) htl
      exact ⟨by rw [hcd, ha], hb⟩

/-- The characters of a session token: the `local-` prefix, then the decimal
digits of the nanosecond count, a hyphen, and the decimal digits of the
pid. -/
theorem mkLocalToken_data (n p : Nat) :
    (mkLocalToken n p).data =
      'l' :: 'o' :: 'c' :: 'a' :: 'l' :: '-' ::
        (toDecDigits n ++ '-' :: toDecDigits p) := by
  have hl : "local-".data = ['l', 'o', 'c', 'a', 'l', '-'] := rfl
  have hd : "-".data = ['-'] := rfl
  simp [mkLocalToken, repr_data, hl, hd]

/-- Distinct timestamp/pid pairs give distinct session tokens. -/
theorem mkLocalToken_inj (n1 p1 n2 p2 : Nat)
    (h : mkLocalToken n1 p1 = mkLocalToken n2 p2) : n1 = n2 ∧ p1 = p2 := by
  have hd := congrArg String.data h
  rw [mkLocalToken_data, mkLocalToken_data] at hd
  simp only [List.cons.injEq, true_and] at hd
  obtain ⟨hn, hp⟩ := append_dash_split (toDecDigits n1) (toDecDigits n2) _ _
    (dash_not_mem_toDecDigits n1) (dash_not_mem_toDecDigits n2) hd
  exact ⟨toDecDigits_inj _ _ hn, toDecDigits_inj _ _ hp⟩

/-- C5: the session token is `local-` followed by the decimal nanosecond
timestamp and the decimal pid separated by a hyphen; a failed clock read
falls back to the zero duration; and launches differing in timestamp and/or
pid produce distinct tokens. -/
theorem token_format_fallback_unique :
    (∀ clock pid, tokenOfClock clock pid
        = "local-" ++ Nat.repr (clock.getD 0) ++ "-" ++ Nat.repr pid) ∧
    (∀ pid, tokenOfClock none pid = mkLocalToken 0 pid) ∧
    (∀ n1 p1 n2 p2 : Nat, (n1, p1) ≠ (n2, p2) →
      mkLocalToken n1 p1 ≠ mkLocalToken n2 p2) := by
  refine ⟨fun clock pid => rfl, fun pid => rfl, ?_⟩
  intro n1 p1 n2 p2 hne heq
  obtain ⟨hn, hp⟩ := mkLocalToken_inj n1 p1 n2 p2 heq
  exact hne (by rw [hn, hp])

/-- Witness for C5: two concrete launches with different timestamps yield
different tokens. -/
theorem token_format_fallback_unique_witness :
    mkLocalToken 1 2 ≠ mkLocalToken 3 2 :=
  token_format_fallback_unique.2.2 1 2 3 2 (by decide)

end EdgeCoder
